import Mathlib

/-!
Verification of the keyboard-backlight controller (`src/main.rs`).

The program is a single polling loop (`main`, lines 89-150): each tick it
drains an activity channel, decides a target brightness from elapsed time
and config, occasionally reads back the true hardware brightness over
dbus, and writes the target to the hardware when it differs from the
cached value.  We embed the per-tick body as a pure function on an
explicit engine state, with the drained activity flag, the current clock
value (in whole seconds) and the value a hardware read would return
supplied as per-tick inputs.  Machine integers (`i32`, `u64`) are modelled
as `Int` and `Nat`; none of the arithmetic in the loop can overflow in
any scenario the claims touch.
-/

/-- Configuration produced by `parse_args` (src/main.rs lines 153-160):
device file path, full brightness (`i32`), inactivity timeout in seconds
(`u64`), dim-enabled flag, lazy flag. -/
structure Config where
  device_file : String
  brightness : Int
  timeout : Nat
  dim : Bool
  lazy : Bool
deriving Repr, DecidableEq

/-- Mutable state of the main loop (src/main.rs lines 79-87):
`brightness` is the desired/target brightness, `current_brightness` the
cached hardware value (initialised to the sentinel `-1`),
`last_event_ts` the timestamp of the last keyboard event (modelled in
whole seconds), `ticks` the counter for the non-lazy hardware read. -/
structure EngineState where
  brightness : Int
  current_brightness : Int
  last_event_ts : Nat
  ticks : Nat
deriving Repr, DecidableEq

/-- Per-tick inputs of the loop body: whether any activity message was
drained from the channel this tick (src/main.rs lines 93-95), the clock
value `now` in whole seconds, and the value `get_brightness` would
return if invoked this tick. -/
structure TickInput where
  activity : Bool
  now : Nat
  hwRead : Int
deriving Repr, DecidableEq

/-- Result of one tick: the new engine state, the write issued to
`set_brightness` (if any), whether `get_brightness` was invoked, and the
extra sleep in milliseconds inserted by the wake path (250 in the
wake-from-off branch, src/main.rs line 105, else 0). -/
structure TickOutput where
  state : EngineState
  write : Option Int
  didRead : Bool
  wake_ms : Nat
deriving Repr, DecidableEq

/-- Decision phase of the tick (src/main.rs lines 100-123).  Returns the
new target brightness, the new `last_event_ts` and the wake sleep.  On an
activity tick the code first sets `brightness = 1`, overwrites it with
`config.brightness` only when `current_brightness > 0`, and otherwise
sleeps 250ms; it then resets `last_event_ts`.  On a no-activity tick it
computes the elapsed seconds `es` and takes the off / dim / unchanged
branch. -/
def decide_brightness (cfg : Config) (s : EngineState) (activity : Bool)
    (now : Nat) : Int × Nat × Nat :=
  if activity then
    if s.current_brightness > 0 then (cfg.brightness, now, 0)
    else (1, now, 250)
  else
    let es := now - s.last_event_ts
    if es ≥ cfg.timeout then (0, s.last_event_ts, 0)
    else if cfg.dim ∧ cfg.brightness > 1 ∧ s.current_brightness > 1 ∧
        es ≥ cfg.timeout / 2 then
      (1, s.last_event_ts, 0)
    else (s.brightness, s.last_event_ts, 0)

/-- Hardware read-back phase (src/main.rs lines 124-143).  Returns the new
cached brightness, the new tick counter and whether `get_brightness` was
invoked.  Skipped entirely in lazy mode; otherwise the read happens when
the counter has reached 10 (resetting it to 0), and the counter is
incremented on the other ticks. -/
def read_if_due (cfg : Config) (s : EngineState) (hwRead : Int) :
    Int × Nat × Bool :=
  if cfg.lazy then (s.current_brightness, s.ticks, false)
  else if s.ticks ≥ 10 then
    (if hwRead ≠ s.current_brightness then hwRead else s.current_brightness,
      0, true)
  else (s.current_brightness, s.ticks + 1, false)

/-- Write phase (src/main.rs lines 144-149).  Returns the new cached
brightness and the write issued, if any: when the target differs from the
cache, `set_brightness target` is called and the cache becomes the
target. -/
def apply_if_changed (target cache : Int) : Int × Option Int :=
  if target ≠ cache then (target, some target) else (cache, none)

/-- One iteration of the main loop body (src/main.rs lines 89-150):
decision phase, then read-back phase, then write phase. -/
def tick (cfg : Config) (s : EngineState) (inp : TickInput) : TickOutput :=
  let d := decide_brightness cfg s inp.activity inp.now
  let r := read_if_due cfg s inp.hwRead
  let a := apply_if_changed d.1 r.1
  { state :=
      { brightness := d.1, current_brightness := a.1,
        last_event_ts := d.2.1, ticks := r.2.1 },
    write := a.2, didRead := r.2.2, wake_ms := d.2.2 }

/-- State after running the loop body on a list of tick inputs. -/
def runState (cfg : Config) : EngineState → List TickInput → EngineState
  | s, [] => s
  | s, i :: rest => runState cfg (tick cfg s i).state rest

/-- The sequence of values written to `set_brightness` along a run. -/
def writesList (cfg : Config) : EngineState → List TickInput → List Int
  | _, [] => []
  | s, i :: rest =>
    match (tick cfg s i).write with
    | some w => w :: writesList cfg (tick cfg s i).state rest
    | none => writesList cfg (tick cfg s i).state rest

/-- The sequence of target brightness values computed along a run (the
value of the `brightness` variable at the end of each tick). -/
def targetsList (cfg : Config) : EngineState → List TickInput → List Int
  | _, [] => []
  | s, i :: rest =>
    (tick cfg s i).state.brightness :: targetsList cfg (tick cfg s i).state rest

/-- Whether `get_brightness` was invoked, tick by tick, along a run. -/
def readsList (cfg : Config) : EngineState → List TickInput → List Bool
  | _, [] => []
  | s, i :: rest => (tick cfg s i).didRead :: readsList cfg (tick cfg s i).state rest

/-- Initial engine state (src/main.rs lines 79-87): target 0, cached
brightness the sentinel `-1`, last event timestamp the startup time,
tick counter 0. -/
def initState (now0 : Nat) : EngineState :=
  { brightness := 0, current_brightness := -1, last_event_ts := now0,
    ticks := 0 }

/-- The input device paths `main` opens (src/main.rs line 62): a fixed
three-element array, independent of the parsed configuration. -/
def devices : List String :=
  ["/dev/input/event3", "/dev/input/event8", "/dev/input/event9"]

/-- The device path `parse_args` stores in the config (src/main.rs lines
217-219): the `-d` option value, defaulting to `/dev/input/event3`. -/
def parsed_device (dOpt : Option String) : String :=
  dOpt.getD "/dev/input/event3"

/-- Per-tick inputs of the fallible model: as `TickInput`, plus whether
the dbus `get_brightness` call would fail this tick (`hwRead` is the
value it returns on success) and whether the `set_brightness` call would
fail. -/
structure TickInputF where
  activity : Bool
  now : Nat
  hwRead : Int
  readFails : Bool
  setFails : Bool
deriving Repr, DecidableEq

/-- One iteration of the loop body with the fallibility of the dbus calls
made explicit.  The source calls `.unwrap()` on both `get_brightness`
(src/main.rs line 129) and `set_brightness` (line 147), so a failed call
panics and aborts the process; we model the abort as `Except.error ()`.
With both failure flags off this agrees with `tick`
(see `tickF_ok_agrees`). -/
def tickF (cfg : Config) (s : EngineState) (inp : TickInputF) :
    Except Unit TickOutput :=
  if cfg.lazy = false ∧ s.ticks ≥ 10 ∧ inp.readFails = true then .error ()
  else if (decide_brightness cfg s inp.activity inp.now).1 ≠
      (read_if_due cfg s inp.hwRead).1 ∧ inp.setFails = true then .error ()
  else .ok (tick cfg s ⟨inp.activity, inp.now, inp.hwRead⟩)

/-- Running the fallible loop body over a list of inputs: the first
failing tick aborts the whole run, no later tick is executed. -/
def runF (cfg : Config) : EngineState → List TickInputF → Except Unit EngineState
  | s, [] => .ok s
  | s, i :: rest =>
    match tickF cfg s i with
    | .error e => .error e
    | .ok o => runF cfg o.state rest

/-- In the absence of dbus failures the fallible model agrees with the
pure one. -/
theorem tickF_ok_agrees (cfg : Config) (s : EngineState) (a : Bool)
    (n : Nat) (h : Int) :
    tickF cfg s ⟨a, n, h, false, false⟩ = .ok (tick cfg s ⟨a, n, h⟩) := by
  simp [tickF]

/-- Default configuration from `parse_args` (src/main.rs lines 213-231):
no flags given, so `dim = true`, `lazy = false`, device
`/dev/input/event3`, brightness 2, timeout 15. -/
def defaultConfig : Config := ⟨"/dev/input/event3", 2, 15, true, false⟩

/-- Default configuration with the `-l` flag: lazy mode. -/
def lazyConfig : Config := ⟨"/dev/input/event3", 2, 15, true, true⟩

/-- Default configuration with the `-n` flag and a 10-second timeout
(the dim-scenario timing of the spec with dimming disabled). -/
def noDimConfig : Config := ⟨"/dev/input/event3", 2, 10, false, false⟩

theorem tick_state_eq (cfg : Config) (s : EngineState) (inp : TickInput) :
    (tick cfg s inp).state.brightness =
      (decide_brightness cfg s inp.activity inp.now).1 ∧
    (tick cfg s inp).state.last_event_ts =
      (decide_brightness cfg s inp.activity inp.now).2.1 ∧
    (tick cfg s inp).state.ticks = (read_if_due cfg s inp.hwRead).2.1 ∧
    (tick cfg s inp).didRead = (read_if_due cfg s inp.hwRead).2.2 := by
  refine ⟨rfl, rfl, rfl, rfl⟩

/-- The cache always equals the target after the write phase: either a
write was issued and set it, or the two were already equal. -/
theorem tick_cache_eq_target (cfg : Config) (s : EngineState) (inp : TickInput) :
    (tick cfg s inp).state.current_brightness =
      (decide_brightness cfg s inp.activity inp.now).1 := by
  by_cases h : (decide_brightness cfg s inp.activity inp.now).1 =
      (read_if_due cfg s inp.hwRead).1
  · simp [tick, apply_if_changed, h]
  · simp [tick, apply_if_changed, h]

/-- A tick either issues no write or writes exactly its computed target. -/
theorem tick_write_cases (cfg : Config) (s : EngineState) (inp : TickInput) :
    (tick cfg s inp).write = none ∨
    (tick cfg s inp).write =
      some ((decide_brightness cfg s inp.activity inp.now).1) := by
  by_cases h : (decide_brightness cfg s inp.activity inp.now).1 =
      (read_if_due cfg s inp.hwRead).1
  · exact Or.inl (by simp [tick, apply_if_changed, h])
  · exact Or.inr (by simp [tick, apply_if_changed, h])

/-- A no-activity tick never changes the last-event timestamp. -/
theorem tick_ts_no_activity (cfg : Config) (s : EngineState) (inp : TickInput)
    (ha : inp.activity = false) :
    (tick cfg s inp).state.last_event_ts = s.last_event_ts := by
  simp only [tick, decide_brightness, ha, Bool.false_eq_true, if_false]
  split_ifs <;> rfl

/-- On a no-activity tick whose elapsed seconds have reached the timeout,
the target becomes 0. -/
theorem tick_off (cfg : Config) (s : EngineState) (inp : TickInput)
    (ha : inp.activity = false)
    (he : cfg.timeout ≤ inp.now - s.last_event_ts) :
    (tick cfg s inp).state.brightness = 0 := by
  unfold tick decide_brightness
  simp [ha, he]

/-- In non-lazy mode `get_brightness` is invoked on a tick exactly when
the counter has reached 10. -/
theorem tick_didRead_iff (cfg : Config) (s : EngineState) (inp : TickInput)
    (hl : cfg.lazy = false) :
    (tick cfg s inp).didRead = true ↔ 10 ≤ s.ticks := by
  simp only [tick, read_if_due, hl, Bool.false_eq_true, if_false]
  split_ifs with h <;> simp [h]

/-- In lazy mode `get_brightness` is never invoked. -/
theorem tick_didRead_lazy (cfg : Config) (s : EngineState) (inp : TickInput)
    (hl : cfg.lazy = true) :
    (tick cfg s inp).didRead = false := by
  simp [tick, read_if_due, hl]

/-- Evolution of the non-lazy tick counter over one tick. -/
theorem tick_ticks_eq (cfg : Config) (s : EngineState) (inp : TickInput)
    (hl : cfg.lazy = false) :
    (tick cfg s inp).state.ticks = if 10 ≤ s.ticks then 0 else s.ticks + 1 := by
  simp only [tick, read_if_due, hl, Bool.false_eq_true, if_false]
  split_ifs with h <;> simp [h]

/-- In non-lazy mode, starting from a counter value at most 10, the
counter after a run equals the initial value plus the number of ticks,
modulo 11: the hardware read recurs every 11th tick. -/
theorem runState_ticks_mod (cfg : Config) (hl : cfg.lazy = false) :
    ∀ (inps : List TickInput) (s : EngineState), s.ticks ≤ 10 →
    (runState cfg s inps).ticks = (s.ticks + inps.length) % 11
  | [], s, hs => by
    simpa [runState] using (Nat.mod_eq_of_lt (by omega)).symm
  | i :: rest, s, hs => by
    have hstep := tick_ticks_eq cfg s i hl
    by_cases h : 10 ≤ s.ticks
    · have hst : (tick cfg s i).state.ticks = 0 := by rw [hstep]; simp [h]
      have ih := runState_ticks_mod cfg hl rest (tick cfg s i).state (by omega)
      rw [runState, ih, hst, List.length_cons]
      have h10 : s.ticks = 10 := by omega
      rw [h10]
      omega
    · have hst : (tick cfg s i).state.ticks = s.ticks + 1 := by
        rw [hstep]; simp [h]
      have ih := runState_ticks_mod cfg hl rest (tick cfg s i).state (by omega)
      rw [runState, ih, hst, List.length_cons]
      omega

/-- While the counter stays below 10, no hardware read happens: any run
of at most `10 - s.ticks` ticks performs no read at all. -/
theorem readsList_all_false (cfg : Config) :
    ∀ (inps : List TickInput) (s : EngineState),
    s.ticks + inps.length ≤ 10 →
    ∀ b ∈ readsList cfg s inps, b = false
  | [], _, _ => by simp [readsList]
  | i :: rest, s, hs => by
    intro b hb
    have hlt : ¬ 10 ≤ s.ticks := by
      simp only [List.length_cons] at hs; omega
    have hread : (tick cfg s i).didRead = false := by
      by_cases hl : cfg.lazy
      · exact tick_didRead_lazy cfg s i hl
      · have := tick_didRead_iff cfg s i (by simpa using hl)
        rcases Bool.eq_false_or_eq_true (tick cfg s i).didRead with h | h
        · exact absurd (this.mp h) hlt
        · exact h
    have hticks : (tick cfg s i).state.ticks ≤ s.ticks + 1 := by
      by_cases hl : cfg.lazy
      · simp [tick, read_if_due, hl]
      · rw [tick_ticks_eq cfg s i (by simpa using hl)]
        simp [hlt]
    rcases (by simpa [readsList] using hb : b = (tick cfg s i).didRead ∨
        b ∈ readsList cfg (tick cfg s i).state rest) with h | h
    · rw [h, hread]
    · exact readsList_all_false cfg rest (tick cfg s i).state
        (by simp only [List.length_cons] at hs; omega) b h

/-- Once the elapsed time has reached the timeout and no activity ever
arrives, every tick of the run computes target 0 and leaves the
last-event timestamp alone. -/
theorem runState_off (cfg : Config) :
    ∀ (inps : List TickInput) (s : EngineState),
    (∀ i ∈ inps, i.activity = false ∧ s.last_event_ts + cfg.timeout ≤ i.now) →
    inps ≠ [] →
    (runState cfg s inps).brightness = 0 ∧
    (runState cfg s inps).last_event_ts = s.last_event_ts
  | [], _, _, hne => absurd rfl hne
  | i :: rest, s, h, _ => by
    have hi := h i (List.mem_cons_self i rest)
    have hb : (tick cfg s i).state.brightness = 0 :=
      tick_off cfg s i hi.1 (by omega)
    have hts : (tick cfg s i).state.last_event_ts = s.last_event_ts :=
      tick_ts_no_activity cfg s i hi.1
    cases rest with
    | nil => exact ⟨hb, hts⟩
    | cons j rest2 =>
      have ih := runState_off cfg (j :: rest2) (tick cfg s i).state
        (fun k hk => by
          have hk2 := h k (List.mem_cons_of_mem i hk)
          exact ⟨hk2.1, by rw [hts]; exact hk2.2⟩)
        (by simp)
      constructor
      · show (runState cfg (tick cfg s i).state (j :: rest2)).brightness = 0
        exact ih.1
      · show (runState cfg (tick cfg s i).state (j :: rest2)).last_event_ts =
          s.last_event_ts
        rw [ih.2, hts]

/-- In lazy mode the read-back phase leaves cache and counter alone. -/
theorem read_if_due_lazy (cfg : Config) (s : EngineState) (v : Int)
    (hl : cfg.lazy = true) :
    read_if_due cfg s v = (s.current_brightness, s.ticks, false) := by
  simp [read_if_due, hl]

/-- In lazy mode, once the cache already equals the constant computed
target, no write is ever issued on the rest of the run. -/
theorem writesList_lazy_nil (cfg : Config) (t : Int) (hl : cfg.lazy = true) :
    ∀ (inps : List TickInput) (s : EngineState),
    s.current_brightness = t →
    (∀ x ∈ targetsList cfg s inps, x = t) →
    writesList cfg s inps = []
  | [], _, _, _ => rfl
  | i :: rest, s, hc, ht => by
    have hd : (decide_brightness cfg s i.activity i.now).1 = t :=
      ht _ (by rw [targetsList]; exact List.mem_cons_self _ _)
    have heq : (decide_brightness cfg s i.activity i.now).1 =
        (read_if_due cfg s i.hwRead).1 := by
      rw [read_if_due_lazy cfg s i.hwRead hl]
      simp [hd, hc]
    have hw : (tick cfg s i).write = none := by
      simp [tick, apply_if_changed, heq]
    have hc2 : (tick cfg s i).state.current_brightness = t := by
      rw [tick_cache_eq_target]; exact hd
    have ih := writesList_lazy_nil cfg t hl rest (tick cfg s i).state hc2
      (fun x hx => ht x (by rw [targetsList]; exact List.mem_cons_of_mem _ hx))
    simp only [writesList, hw, ih]

/-- In lazy mode, a run whose computed target is constant issues at most
one write. -/
theorem writesList_lazy_le_one (cfg : Config) (t : Int) (hl : cfg.lazy = true)
    (s : EngineState) (inps : List TickInput)
    (ht : ∀ x ∈ targetsList cfg s inps, x = t) :
    (writesList cfg s inps).length ≤ 1 := by
  cases inps with
  | nil => simp [writesList]
  | cons i rest =>
    have hd : (decide_brightness cfg s i.activity i.now).1 = t :=
      ht _ (by rw [targetsList]; exact List.mem_cons_self _ _)
    have hc2 : (tick cfg s i).state.current_brightness = t := by
      rw [tick_cache_eq_target]; exact hd
    have hnil := writesList_lazy_nil cfg t hl rest (tick cfg s i).state hc2
      (fun x hx => ht x (by rw [targetsList]; exact List.mem_cons_of_mem _ hx))
    rcases tick_write_cases cfg s i with hw | hw <;>
      simp [writesList, hw, hnil]

/-- With dimming disabled, a no-activity tick computes target 0 or keeps
the previous target. -/
theorem tick_idle_no_dim (cfg : Config) (s : EngineState) (inp : TickInput)
    (ha : inp.activity = false) (hdim : cfg.dim = false) :
    (tick cfg s inp).state.brightness = 0 ∨
    (tick cfg s inp).state.brightness = s.brightness := by
  have hshow : (tick cfg s inp).state.brightness =
      (decide_brightness cfg s inp.activity inp.now).1 := rfl
  rw [hshow]
  unfold decide_brightness
  rw [ha, hdim]
  simp only [Bool.false_eq_true, if_false]
  split_ifs <;> simp_all

/-- With dimming disabled and no activity, every write of a run is
either 0 or the starting target. -/
theorem writesList_no_dim (cfg : Config) (hdim : cfg.dim = false) :
    ∀ (inps : List TickInput) (s : EngineState),
    (∀ i ∈ inps, i.activity = false) →
    (s.brightness = 0 ∨ s.brightness = cfg.brightness) →
    ∀ w ∈ writesList cfg s inps, w = 0 ∨ w = cfg.brightness
  | [], _, _, _ => by simp [writesList]
  | i :: rest, s, hact, hs => by
    intro w hw
    have ha := hact i (List.mem_cons_self i rest)
    have htar := tick_idle_no_dim cfg s i ha hdim
    have hinv : (tick cfg s i).state.brightness = 0 ∨
        (tick cfg s i).state.brightness = cfg.brightness := by
      rcases htar with h | h
      · exact Or.inl h
      · rw [h]; exact hs
    have ih := writesList_no_dim cfg hdim rest (tick cfg s i).state
      (fun k hk => hact k (List.mem_cons_of_mem i hk)) hinv
    rcases tick_write_cases cfg s i with hwc | hwc
    · exact ih w (by simpa [writesList, hwc] using hw)
    · rcases (by simpa [writesList, hwc] using hw :
          w = (decide_brightness cfg s i.activity i.now).1 ∨
          w ∈ writesList cfg (tick cfg s i).state rest) with h | h
      · rw [h]; exact hinv
      · exact ih w h



/-- C1 counterexample: with the default configuration (full brightness 2)
and a cached hardware brightness of 0, an activity tick sets the target
to 1, not to the full configured brightness 2, and the issued write is
`1`, contradicting the claim that the write issued after waking from a
fully-off cached state is the full configured value. -/
theorem c1_counterexample :
    (tick defaultConfig ⟨0, 0, 0, 0⟩ ⟨true, 5, 0⟩).state.brightness ≠
      defaultConfig.brightness ∧
    (tick defaultConfig ⟨0, 0, 0, 0⟩ ⟨true, 5, 0⟩).write = some 1 ∧
    (tick defaultConfig ⟨0, 0, 0, 0⟩ ⟨true, 5, 0⟩).wake_ms = 250 := by
  refine ⟨by decide, by decide, by decide⟩

/-- C1 (amended): on every tick on which an activity signal was drained,
if the cached hardware brightness was > 0 the new target is the full
configured brightness, applied with no extra delay; if the cached
brightness was ≤ 0 the engine inserts the fixed 250ms wake delay and the
new target is 1, not the full configured brightness; in both cases the
last-activity timestamp is reset to the tick's current time. -/
theorem c1_wake_behavior (cfg : Config) (s : EngineState) (inp : TickInput)
    (ha : inp.activity = true) :
    (0 < s.current_brightness →
      (tick cfg s inp).state.brightness = cfg.brightness ∧
      (tick cfg s inp).wake_ms = 0) ∧
    (s.current_brightness ≤ 0 →
      (tick cfg s inp).state.brightness = 1 ∧
      (tick cfg s inp).wake_ms = 250) ∧
    (tick cfg s inp).state.last_event_ts = inp.now := by
  by_cases hc : 0 < s.current_brightness
  · refine ⟨fun _ => ⟨?_, ?_⟩, fun h => absurd h (by omega), ?_⟩ <;>
      simp [tick, decide_brightness, ha, hc]
  · refine ⟨fun h => absurd h (by omega), fun _ => ⟨?_, ?_⟩, ?_⟩ <;>
      simp [tick, decide_brightness, ha, hc]

/-- C1 witness: the amended claim at concrete inputs, one for each side
of the cache test. -/
theorem c1_wake_behavior_witness :
    ((tick defaultConfig ⟨2, 2, 0, 0⟩ ⟨true, 5, 7⟩).state.brightness =
        defaultConfig.brightness ∧
      (tick defaultConfig ⟨2, 2, 0, 0⟩ ⟨true, 5, 7⟩).wake_ms = 0) ∧
    ((tick defaultConfig ⟨1, 0, 0, 0⟩ ⟨true, 5, 7⟩).state.brightness = 1 ∧
      (tick defaultConfig ⟨1, 0, 0, 0⟩ ⟨true, 5, 7⟩).wake_ms = 250) :=
  ⟨(c1_wake_behavior defaultConfig ⟨2, 2, 0, 0⟩ ⟨true, 5, 7⟩ rfl).1 (by decide),
   (c1_wake_behavior defaultConfig ⟨1, 0, 0, 0⟩ ⟨true, 5, 7⟩ rfl).2.1 (by decide)⟩

/-- C3: on a no-activity tick with dimming enabled, full brightness > 1,
cached hardware brightness > 1 and elapsed whole seconds in the window
[T/2, T), the computed target brightness becomes 1. -/
theorem c3_dim_stage (cfg : Config) (s : EngineState) (inp : TickInput)
    (ha : inp.activity = false) (hd : cfg.dim = true)
    (hb : 1 < cfg.brightness) (hc : 1 < s.current_brightness)
    (h1 : cfg.timeout / 2 ≤ inp.now - s.last_event_ts)
    (h2 : inp.now - s.last_event_ts < cfg.timeout) :
    (tick cfg s inp).state.brightness = 1 := by
  have hto : ¬ cfg.timeout ≤ inp.now - s.last_event_ts := by omega
  simp [tick, decide_brightness, ha, hto, hd, hb, hc, h1]

/-- C3 witness: timeout 15, brightness 2, dim on, cache 2, elapsed 8
seconds (between 15/2 = 7 and 15): the target becomes 1. -/
theorem c3_dim_stage_witness :
    (tick defaultConfig ⟨2, 2, 0, 3⟩ ⟨false, 8, 7⟩).state.brightness = 1 :=
  c3_dim_stage defaultConfig ⟨2, 2, 0, 3⟩ ⟨false, 8, 7⟩ rfl rfl (by decide)
    (by decide) (by decide) (by decide)

/-- C7: on a no-activity tick whose elapsed seconds are below the
timeout and on which the dim condition (dimming enabled, full
brightness > 1, cached brightness > 1, elapsed at least T/2) does not
hold, both the target brightness and the last-activity timestamp are
left unchanged. -/
theorem c7_idle_unchanged (cfg : Config) (s : EngineState) (inp : TickInput)
    (ha : inp.activity = false)
    (hlt : inp.now - s.last_event_ts < cfg.timeout)
    (hnd : ¬(cfg.dim = true ∧ 1 < cfg.brightness ∧ 1 < s.current_brightness ∧
      cfg.timeout / 2 ≤ inp.now - s.last_event_ts)) :
    (tick cfg s inp).state.brightness = s.brightness ∧
    (tick cfg s inp).state.last_event_ts = s.last_event_ts := by
  have hto : ¬ cfg.timeout ≤ inp.now - s.last_event_ts := by omega
  constructor
  · show (decide_brightness cfg s inp.activity inp.now).1 = s.brightness
    unfold decide_brightness
    rw [ha]
    simp only [Bool.false_eq_true, if_false]
    rw [if_neg (by simpa using hto), if_neg (by simpa using hnd)]
  · exact tick_ts_no_activity cfg s inp ha

/-- C7 witness: default config, elapsed 3 seconds (below 15/2 = 7), so
neither the off branch nor the dim branch fires: target and timestamp
stay. -/
theorem c7_idle_unchanged_witness :
    (tick defaultConfig ⟨2, 2, 0, 0⟩ ⟨false, 3, 7⟩).state.brightness = 2 ∧
    (tick defaultConfig ⟨2, 2, 0, 0⟩ ⟨false, 3, 7⟩).state.last_event_ts = 0 :=
  c7_idle_unchanged defaultConfig ⟨2, 2, 0, 0⟩ ⟨false, 3, 7⟩ rfl (by decide)
    (by decide)

/-- C4: in a run in which no activity signal is ever observed and every
tick's clock has passed the last-activity timestamp by at least the
timeout T, the target brightness is 0 after the first tick of the run
and stays 0 after every subsequent tick (every nonempty prefix of the
run ends with target 0). -/
theorem c4_timeout_off (cfg : Config) (s : EngineState) (inps : List TickInput)
    (hact : ∀ i ∈ inps, i.activity = false)
    (helapsed : ∀ i ∈ inps, s.last_event_ts + cfg.timeout ≤ i.now) :
    ∀ p q, inps = p ++ q → p ≠ [] → (runState cfg s p).brightness = 0 := by
  intro p q hpq hp
  subst hpq
  exact (runState_off cfg p s
    (fun i hi => ⟨hact i (List.mem_append_left q hi),
      helapsed i (List.mem_append_left q hi)⟩) hp).1

/-- C4 witness: timeout 15, last event at 0, ticks at 20s and 21s with
no activity: the target is 0 after the first tick and after the second. -/
theorem c4_timeout_off_witness :
    (runState defaultConfig ⟨2, 2, 0, 0⟩ [⟨false, 20, 2⟩]).brightness = 0 ∧
    (runState defaultConfig ⟨2, 2, 0, 0⟩
      [⟨false, 20, 2⟩, ⟨false, 21, 2⟩]).brightness = 0 :=
  ⟨c4_timeout_off defaultConfig ⟨2, 2, 0, 0⟩ [⟨false, 20, 2⟩, ⟨false, 21, 2⟩]
      (by decide) (by decide) [⟨false, 20, 2⟩] [⟨false, 21, 2⟩] rfl
      (List.cons_ne_nil _ _),
   c4_timeout_off defaultConfig ⟨2, 2, 0, 0⟩ [⟨false, 20, 2⟩, ⟨false, 21, 2⟩]
      (by decide) (by decide) [⟨false, 20, 2⟩, ⟨false, 21, 2⟩] [] rfl
      (List.cons_ne_nil _ _)⟩

/-- C2 counterexample: a non-lazy run from the initial state on 23 idle
ticks whose hardware reads report 5 has a constant computed target 0,
yet issues three writes: the periodic read-back resets the cache to the
out-of-band hardware value and the engine rewrites the same target, so
"at most one write across any tick sequence with a constant target" is
false as a universal statement. -/
theorem c2_counterexample :
    targetsList defaultConfig (initState 0) (List.replicate 23 ⟨false, 0, 5⟩) =
      List.replicate 23 0 ∧
    (writesList defaultConfig (initState 0)
      (List.replicate 23 ⟨false, 0, 5⟩)).length = 3 := by
  refine ⟨by decide, by decide⟩

/-- C2 (amended): on every tick a write is issued if and only if the
computed target differs from the cached value as updated by this tick's
read-back phase; the value written is the target and after the tick the
cache equals the target.  Consequently in lazy mode, where the read-back
never perturbs the cache, a tick sequence with a constant computed
target issues at most one write; in non-lazy mode an out-of-band
hardware change seen by the read-back can make the engine rewrite a
constant target. -/
theorem c2_write_iff :
    (∀ cfg s inp,
      ((tick cfg s inp).write = none ↔
        (decide_brightness cfg s inp.activity inp.now).1 =
          (read_if_due cfg s inp.hwRead).1) ∧
      ((tick cfg s inp).write ≠ none →
        (tick cfg s inp).write =
          some ((decide_brightness cfg s inp.activity inp.now).1)) ∧
      (tick cfg s inp).state.current_brightness =
        (decide_brightness cfg s inp.activity inp.now).1) ∧
    (∀ cfg (t : Int) s inps, cfg.lazy = true →
      (∀ x ∈ targetsList cfg s inps, x = t) →
      (writesList cfg s inps).length ≤ 1) := by
  constructor
  · intro cfg s inp
    refine ⟨?_, ?_, tick_cache_eq_target cfg s inp⟩
    · by_cases h : (decide_brightness cfg s inp.activity inp.now).1 =
          (read_if_due cfg s inp.hwRead).1 <;>
        simp [tick, apply_if_changed, h]
    · intro hne
      rcases tick_write_cases cfg s inp with h | h
      · exact absurd h hne
      · exact h
  · intro cfg t s inps hl ht
    exact writesList_lazy_le_one cfg t hl s inps ht

/-- C2 witness: on the first lazy tick from the initial state a write of
the computed target is issued (cache value -1 differs from target 0), and
a 5-tick lazy run with constant target 0 issues at most one write. -/
theorem c2_write_iff_witness :
    (tick lazyConfig (initState 0) ⟨false, 0, 5⟩).write =
      some ((decide_brightness lazyConfig (initState 0) false 0).1) ∧
    (writesList lazyConfig (initState 0)
      (List.replicate 5 ⟨false, 0, 5⟩)).length ≤ 1 :=
  ⟨(c2_write_iff.1 lazyConfig (initState 0) ⟨false, 0, 5⟩).2.1 (by decide),
   c2_write_iff.2 lazyConfig 0 (initState 0) (List.replicate 5 ⟨false, 0, 5⟩)
     rfl (by decide)⟩

/-- C5 counterexample: in non-lazy mode, starting from the initial state
(counter 0), no hardware read occurs during the first ten ticks; the
first read happens on the eleventh tick, so the read-back is not
"invoked on every Nth tick with default N=10". -/
theorem c5_counterexample :
    readsList defaultConfig (initState 0) (List.replicate 10 ⟨false, 0, 0⟩) =
      List.replicate 10 false ∧
    (tick defaultConfig
      (runState defaultConfig (initState 0) (List.replicate 10 ⟨false, 0, 0⟩))
      ⟨false, 0, 0⟩).didRead = true := by
  refine ⟨by decide, by decide⟩

/-- C5 (amended): in lazy mode the hardware read-back is never invoked on
any tick; in non-lazy mode it is invoked exactly on the ticks whose
counter has reached 10 — the counter evolves as (initial + number of
ticks) mod 11, so the read recurs every 11th tick (not every 10th),
independent of activity — and when the value read differs from the
cached brightness the cache is updated to the value read. -/
theorem c5_read_cadence :
    (∀ cfg s inp, cfg.lazy = true → (tick cfg s inp).didRead = false) ∧
    (∀ cfg s inp, cfg.lazy = false →
      ((tick cfg s inp).didRead = true ↔ 10 ≤ s.ticks)) ∧
    (∀ cfg s (v : Int), cfg.lazy = false → 10 ≤ s.ticks →
      v ≠ s.current_brightness → (read_if_due cfg s v).1 = v) ∧
    (∀ cfg s inps, cfg.lazy = false → s.ticks ≤ 10 →
      (runState cfg s inps).ticks = (s.ticks + inps.length) % 11) := by
  refine ⟨tick_didRead_lazy, tick_didRead_iff, ?_, ?_⟩
  · intro cfg s v hl ht hne
    simp [read_if_due, hl, ht, hne]
  · intro cfg s inps hl hs
    exact runState_ticks_mod cfg hl inps s hs

/-- C5 witness: lazy tick with counter 42 does not read; non-lazy tick
with counter 10 reads; a differing value is taken over into the cache;
after 22 non-lazy ticks from counter 0 the counter is (0 + 22) % 11. -/
theorem c5_read_cadence_witness :
    (tick lazyConfig ⟨0, 0, 0, 42⟩ ⟨false, 0, 5⟩).didRead = false ∧
    ((tick defaultConfig ⟨0, 0, 0, 10⟩ ⟨false, 0, 5⟩).didRead = true ↔
      (10 : Nat) ≤ 10) ∧
    (read_if_due defaultConfig ⟨0, 0, 0, 10⟩ 5).1 = 5 ∧
    (runState defaultConfig (initState 0)
      (List.replicate 22 ⟨false, 0, 5⟩)).ticks = (0 + 22) % 11 :=
  ⟨c5_read_cadence.1 lazyConfig ⟨0, 0, 0, 42⟩ ⟨false, 0, 5⟩ rfl,
   c5_read_cadence.2.1 defaultConfig ⟨0, 0, 0, 10⟩ ⟨false, 0, 5⟩ rfl,
   c5_read_cadence.2.2.1 defaultConfig ⟨0, 0, 0, 10⟩ 5 rfl (by decide) (by decide),
   c5_read_cadence.2.2.2 defaultConfig (initState 0)
     (List.replicate 22 ⟨false, 0, 5⟩) rfl (by decide)⟩

/-- C6: with dimming disabled (the `-n` flag), full brightness 2 and no
activity, every write a run issues is 0 or 2 and never the intermediate
1, whatever the elapsed times are, provided the starting target is one
of the off/full values. -/
theorem c6_no_dim_no_intermediate (cfg : Config) (s : EngineState)
    (inps : List TickInput) (hdim : cfg.dim = false) (hb : cfg.brightness = 2)
    (hact : ∀ i ∈ inps, i.activity = false)
    (hs : s.brightness = 0 ∨ s.brightness = 2) :
    ∀ w ∈ writesList cfg s inps, w ≠ 1 ∧ (w = 0 ∨ w = 2) := by
  intro w hw
  have hmem := writesList_no_dim cfg hdim inps s hact (by rw [hb]; exact hs) w hw
  rw [hb] at hmem
  exact ⟨by rcases hmem with h | h <;> omega, hmem⟩

/-- C6 witness: the dim-scenario timing with `--no-dim` (timeout 10,
brightness 2, fully on, idle ticks at 6s and 11s): the run writes
exactly [0], and that write is neither 1 nor outside the off/full set. -/
theorem c6_no_dim_witness :
    writesList noDimConfig ⟨2, 2, 0, 0⟩ [⟨false, 6, 2⟩, ⟨false, 11, 2⟩] = [0] ∧
    ((0 : Int) ≠ 1 ∧ ((0 : Int) = 0 ∨ (0 : Int) = 2)) :=
  ⟨by decide,
   c6_no_dim_no_intermediate noDimConfig ⟨2, 2, 0, 0⟩
     [⟨false, 6, 2⟩, ⟨false, 11, 2⟩] rfl rfl (by decide) (by decide)
     0 (by decide)⟩

/-- C8: evaluation at the failing input `-d /dev/input/event5`.  The
parsed device becomes `/dev/input/event5`, as the claim and the option's
own help text ("specify the device file") intend, but the set of paths
`main` opens for input monitoring is the fixed hardcoded list, which
does not contain it: the parsed device configuration has no effect. -/
theorem c8_device_option_ignored :
    parsed_device (some "/dev/input/event5") = "/dev/input/event5" ∧
    devices = ["/dev/input/event3", "/dev/input/event8", "/dev/input/event9"] ∧
    parsed_device (some "/dev/input/event5") ∉ devices := by
  refine ⟨rfl, rfl, by decide⟩

/-- C9: a failed dbus call aborts the process.  If the periodic read is
due and `get_brightness` fails, the tick aborts; if a write is needed
and `set_brightness` fails, the tick aborts; and an aborted tick aborts
the whole run — no later tick is executed. -/
theorem c9_hw_failure_fatal :
    (∀ cfg s inp, cfg.lazy = false → 10 ≤ s.ticks → inp.readFails = true →
      tickF cfg s inp = .error ()) ∧
    (∀ cfg s inp, inp.setFails = true →
      (decide_brightness cfg s inp.activity inp.now).1 ≠
        (read_if_due cfg s inp.hwRead).1 →
      (cfg.lazy = true ∨ s.ticks < 10 ∨ inp.readFails = false) →
      tickF cfg s inp = .error ()) ∧
    (∀ cfg s inp rest, tickF cfg s inp = .error () →
      runF cfg s (inp :: rest) = .error ()) := by
  refine ⟨?_, ?_, ?_⟩
  · intro cfg s inp hl ht hr
    simp [tickF, hl, ht, hr]
  · intro cfg s inp hsf hne hc
    have h1 : ¬(cfg.lazy = false ∧ s.ticks ≥ 10 ∧ inp.readFails = true) := by
      rcases hc with h | h | h <;> simp [h]
    simp [tickF, h1, hne, hsf]
  · intro cfg s inp rest h
    simp [runF, h]

/-- C9 witness: a due read that fails aborts the tick; a needed write
that fails aborts the tick; a run whose first tick has a failing due
read aborts without reaching the second tick. -/
theorem c9_hw_failure_fatal_witness :
    tickF defaultConfig ⟨0, 0, 0, 10⟩ ⟨false, 0, 0, true, false⟩ = .error () ∧
    tickF lazyConfig ⟨0, -1, 0, 0⟩ ⟨false, 0, 0, false, true⟩ = .error () ∧
    runF defaultConfig ⟨0, 0, 0, 10⟩
      [⟨false, 0, 0, true, false⟩, ⟨true, 1, 1, false, false⟩] = .error () :=
  ⟨c9_hw_failure_fatal.1 defaultConfig ⟨0, 0, 0, 10⟩ ⟨false, 0, 0, true, false⟩
      rfl (by decide) rfl,
   c9_hw_failure_fatal.2.1 lazyConfig ⟨0, -1, 0, 0⟩ ⟨false, 0, 0, false, true⟩
      rfl (by decide) (Or.inl rfl),
   c9_hw_failure_fatal.2.2 defaultConfig ⟨0, 0, 0, 10⟩ ⟨false, 0, 0, true, false⟩
      [⟨true, 1, 1, false, false⟩]
      (c9_hw_failure_fatal.1 defaultConfig ⟨0, 0, 0, 10⟩
        ⟨false, 0, 0, true, false⟩ rfl (by decide) rfl)⟩

/-- C10: at startup the cache is the sentinel -1 and the target 0; on
the very first tick with no activity before the timeout no read-back
happens (the counter starts at 0) and a write of 0 is issued, whatever
the actual hardware value is; and no read-back can occur during any run
of at most ten ticks from the initial state. -/
theorem c10_startup_write_off (cfg : Config) (now0 : Nat) (inp : TickInput)
    (ha : inp.activity = false) (hlt : inp.now - now0 < cfg.timeout) :
    (initState now0).brightness = 0 ∧
    (initState now0).current_brightness = -1 ∧
    (tick cfg (initState now0) inp).didRead = false ∧
    (tick cfg (initState now0) inp).write = some 0 ∧
    (∀ inps : List TickInput, inps.length ≤ 10 →
      ∀ b ∈ readsList cfg (initState now0) inps, b = false) := by
  have hto : ¬ cfg.timeout ≤ inp.now - now0 := by omega
  refine ⟨rfl, rfl, ?_, ?_, ?_⟩
  · by_cases hl : cfg.lazy <;> simp [tick, read_if_due, hl, initState]
  · by_cases hl : cfg.lazy <;>
      simp [tick, decide_brightness, read_if_due, apply_if_changed, ha, hto,
        hl, initState, (by decide : ¬((-1 : Int) > 1))]
  · intro inps hlen
    exact readsList_all_false cfg inps (initState now0)
      (by simpa [initState] using hlen)

/-- C10 witness: default config, startup at time 0, first tick at 0s
with the hardware actually at 7: a write of 0 is issued, and a 10-tick
run from startup performs no read. -/
theorem c10_startup_write_off_witness :
    (tick defaultConfig (initState 0) ⟨false, 0, 7⟩).write = some 0 ∧
    ∀ b ∈ readsList defaultConfig (initState 0)
      (List.replicate 10 ⟨false, 0, 7⟩), b = false :=
  ⟨(c10_startup_write_off defaultConfig 0 ⟨false, 0, 7⟩ rfl (by decide)).2.2.2.1,
   (c10_startup_write_off defaultConfig 0 ⟨false, 0, 7⟩ rfl
      (by decide)).2.2.2.2 (List.replicate 10 ⟨false, 0, 7⟩) (by decide)⟩
